import Mathlib

/-!
Verification of the TCP-connection state machine from the State pattern
example (src/Behavioural/state.cpp).

The C++ program has three concrete state classes (ClosedState,
ListeningState, EstablishedState), each implementing the four virtual
methods of the State interface: open, close, sendData, receiveData.
Each method only prints a message to the console; none of them mutates
the TCPConnection (the methods have no access to the context object, and
the lines marked "Transition to ... state" are comments, not code).
The TCPConnection context holds a single state pointer, replaced only by
setState, and forwards each of the four calls to the current state.

We embed each virtual method as a function from the current state to the
printed message, and the context as a structure holding the current
state. Every action therefore returns the unchanged connection paired
with the message its handler prints.
-/

namespace TCP

/-- The closed set of concrete states of the example: ClosedState,
ListeningState, EstablishedState. -/
inductive ConnState where
  | closed
  | listening
  | established
deriving DecidableEq, Repr

/-- Dispatch of the virtual method `open()` on the current state:
the message each concrete class prints. No class changes the state
(ClosedState::open only prints; its transition line is a comment). -/
def openMsg : ConnState → String
  | .closed => "Transitioning from Closed to Listening state."
  | .listening => "Already in Listening state."
  | .established => "Already in Established state."

/-- Dispatch of the virtual method `close()` on the current state. -/
def closeMsg : ConnState → String
  | .closed => "Already in Closed state."
  | .listening => "Transitioning from Listening to Closed state."
  | .established => "Transitioning from Established to Closed state."

/-- Dispatch of the virtual method `sendData(data)` on the current
state. -/
def sendDataMsg (s : ConnState) (data : String) : String :=
  match s with
  | .closed => "Cannot send data. Connection is closed."
  | .listening => "Cannot send data. Connection is in Listening state."
  | .established => "Sending data: " ++ data

/-- Dispatch of the virtual method `receiveData(data)` on the current
state. -/
def receiveDataMsg (s : ConnState) (data : String) : String :=
  match s with
  | .closed => "Cannot receive data. Connection is closed."
  | .listening => "Transitioning from Listening to Established state."
  | .established => "Receiving data: " ++ data

/-- The context class TCPConnection: holds the current state. -/
structure TCPConnection where
  state : ConnState
deriving DecidableEq, Repr

/-- TCPConnection::setState — unconditionally replace the current
state. -/
def setState (c : TCPConnection) (newState : ConnState) : TCPConnection :=
  { c with state := newState }

/-- TCPConnection::open — forwards to the current state, which prints a
message and leaves the connection unchanged. -/
def openConn (c : TCPConnection) : TCPConnection × String :=
  (c, openMsg c.state)

/-- TCPConnection::close. -/
def closeConn (c : TCPConnection) : TCPConnection × String :=
  (c, closeMsg c.state)

/-- TCPConnection::sendData. -/
def sendData (c : TCPConnection) (data : String) : TCPConnection × String :=
  (c, sendDataMsg c.state data)

/-- TCPConnection::receiveData. -/
def receiveData (c : TCPConnection) (data : String) : TCPConnection × String :=
  (c, receiveDataMsg c.state data)

/-- The four user actions of the machine. -/
inductive Action where
  | openA
  | closeA
  | send (payload : String)
  | receive (payload : String)
deriving DecidableEq, Repr

/-- One action call on the connection: dispatch to the matching
TCPConnection method, yielding the connection after the call together
with the message printed by the handler. -/
def stepConn (c : TCPConnection) : Action → TCPConnection × String
  | .openA => openConn c
  | .closeA => closeConn c
  | .send p => sendData c p
  | .receive p => receiveData c p

/-- Run a finite sequence of actions, collecting the printed messages in
order. -/
def runConn (c : TCPConnection) : List Action → TCPConnection × List String
  | [] => (c, [])
  | a :: rest =>
      let afterA := stepConn c a
      let r := runConn afterA.1 rest
      (r.1, afterA.2 :: r.2)

/-- The states observed after each action of a sequence, in order. -/
def runStates (c : TCPConnection) : List Action → List ConnState
  | [] => []
  | a :: rest => (stepConn c a).1.state :: runStates (stepConn c a).1 rest

/-- The rejection messages of the example all announce impossibility:
they are exactly the messages beginning with the word Cannot. An effect
is accepted when its report is not such a rejection. -/
def isRejection (m : String) : Bool :=
  decide (m.data.take 6 = "Cannot".data)

lemma isRejection_sending (p : String) :
    isRejection ("Sending data: " ++ p) = false := by
  unfold isRejection
  rw [String.data_append, List.take_append_of_le_length (by decide)]
  decide

lemma isRejection_receiving (p : String) :
    isRejection ("Receiving data: " ++ p) = false := by
  unfold isRejection
  rw [String.data_append, List.take_append_of_le_length (by decide)]
  decide

lemma length_sending_pos (p : String) : 0 < ("Sending data: " ++ p).length := by
  rw [String.length_append]
  have h : "Sending data: ".length = 14 := rfl
  omega

lemma length_receiving_pos (p : String) : 0 < ("Receiving data: " ++ p).length := by
  rw [String.length_append]
  have h : "Receiving data: ".length = 16 := rfl
  omega

lemma stepConn_fst (c : TCPConnection) (a : Action) : (stepConn c a).1 = c := by
  cases a <;> rfl

/-- Claim C1: the spec says close() from any state yields Closed. In the
code, ListeningState::close and EstablishedState::close only print the
transition message (the transition itself is a comment, not code), so the
state stays Listening, resp. Established — close() does not drive the
machine to Closed. -/
theorem close_does_not_reach_closed :
    (closeConn ⟨ConnState.listening⟩).1.state = ConnState.listening
    ∧ (closeConn ⟨ConnState.listening⟩).2
        = "Transitioning from Listening to Closed state."
    ∧ (closeConn ⟨ConnState.established⟩).1.state = ConnState.established
    ∧ (closeConn ⟨ConnState.established⟩).2
        = "Transitioning from Established to Closed state." :=
  ⟨rfl, rfl, rfl, rfl⟩

/-- Claim C2: the spec says open() from Closed yields Listening. In the
code, ClosedState::open only prints the transition message and the state
stays Closed; the Listening half (open() a no-op from Listening) does
hold. -/
theorem open_does_not_reach_listening :
    (openConn ⟨ConnState.closed⟩).1.state = ConnState.closed
    ∧ (openConn ⟨ConnState.closed⟩).2
        = "Transitioning from Closed to Listening state."
    ∧ (openConn ⟨ConnState.listening⟩).1.state = ConnState.listening :=
  ⟨rfl, rfl, rfl⟩

/-- Claim C3: the spec says receive from Listening yields Established. In
the code, ListeningState::receiveData only prints the transition message
and the state stays Listening; the Established half (state unchanged,
report echoes the payload) does hold. -/
theorem receive_does_not_reach_established :
    (receiveData ⟨ConnState.listening⟩ "Hello").1.state = ConnState.listening
    ∧ (receiveData ⟨ConnState.listening⟩ "Hello").2
        = "Transitioning from Listening to Established state."
    ∧ (receiveData ⟨ConnState.established⟩ "Hi").1.state = ConnState.established
    ∧ (receiveData ⟨ConnState.established⟩ "Hi").2 = "Receiving data: Hi" :=
  ⟨rfl, rfl, rfl, rfl⟩

/-- Claim C4: the spec says the round trip open; receive x; send y; close
from Closed passes through Listening and Established, so the send is
accepted exactly once. In the code no handler transitions: the machine
stays Closed throughout, every intermediate call is rejected, and the
send is rejected rather than accepted (the final state is Closed only
because it never left Closed). -/
theorem roundTrip_send_rejected :
    (runConn ⟨ConnState.closed⟩
        [Action.openA, Action.receive "Hi", Action.send "Hello",
         Action.closeA]).1.state = ConnState.closed
    ∧ (runConn ⟨ConnState.closed⟩
        [Action.openA, Action.receive "Hi", Action.send "Hello",
         Action.closeA]).2
      = ["Transitioning from Closed to Listening state.",
         "Cannot receive data. Connection is closed.",
         "Cannot send data. Connection is closed.",
         "Already in Closed state."]
    ∧ isRejection "Cannot send data. Connection is closed." = true :=
  ⟨rfl, rfl, by decide⟩

/-- Claim C5: send(p) produces an accepted (non-rejection) effect exactly
when the current state is Established, and in every state — in
particular Closed and Listening — the connection is left unchanged. -/
theorem send_accepted_iff_established (s : ConnState) (p : String) :
    (isRejection (sendData ⟨s⟩ p).2 = false ↔ s = ConnState.established)
    ∧ (sendData ⟨s⟩ p).1.state = s := by
  refine ⟨?_, rfl⟩
  cases s with
  | closed =>
      show isRejection "Cannot send data. Connection is closed." = false
        ↔ ConnState.closed = ConnState.established
      decide
  | listening =>
      show isRejection "Cannot send data. Connection is in Listening state."
          = false
        ↔ ConnState.listening = ConnState.established
      decide
  | established => simp [sendData, sendDataMsg, isRejection_sending]

/-- Claim C6: in the code as written no action handler ever changes the
state of the connection — every one of open, close, sendData and
receiveData returns the connection exactly as it was — and setState is
the only operation that changes the state. -/
theorem actions_never_change_state (c : TCPConnection) (a : Action)
    (next : ConnState) :
    (stepConn c a).1 = c ∧ (setState c next).state = next :=
  ⟨stepConn_fst c a, rfl⟩

/-- Claim C7: for every initial connection and every finite action
sequence, each state observed after an action is one of the three
declared states Closed, Listening, Established. -/
theorem states_always_declared (c : TCPConnection) (acts : List Action)
    (s : ConnState) (hs : s ∈ runStates c acts) :
    s = ConnState.closed ∨ s = ConnState.listening
      ∨ s = ConnState.established := by
  cases s
  · exact Or.inl rfl
  · exact Or.inr (Or.inl rfl)
  · exact Or.inr (Or.inr rfl)

/-- Witness for claim C7 at a concrete input. -/
theorem states_always_declared_witness :
    ConnState.closed ∈ runStates ⟨ConnState.closed⟩ [Action.openA]
    ∧ (ConnState.closed = ConnState.closed
        ∨ ConnState.closed = ConnState.listening
        ∨ ConnState.closed = ConnState.established) :=
  ⟨by decide,
   states_always_declared ⟨ConnState.closed⟩ [Action.openA] ConnState.closed
     (by decide)⟩

/-- Claim C8: every (state, action, payload) call is total: the dispatch
always returns normally with an effect report (a nonempty message);
rejection is a reported message, never a fault. -/
theorem every_action_returns_report (c : TCPConnection) (a : Action) :
    0 < (stepConn c a).2.length := by
  obtain ⟨s⟩ := c
  cases a with
  | openA => cases s <;> decide
  | closeA => cases s <;> decide
  | send p =>
      cases s with
      | closed =>
          show 0 < ("Cannot send data. Connection is closed." : String).length
          decide
      | listening =>
          show 0 <
            ("Cannot send data. Connection is in Listening state." : String).length
          decide
      | established => exact length_sending_pos p
  | receive p =>
      cases s with
      | closed =>
          show 0 <
            ("Cannot receive data. Connection is closed." : String).length
          decide
      | listening =>
          show 0 <
            ("Transitioning from Listening to Established state." : String).length
          decide
      | established => exact length_receiving_pos p

/-- Claim C9: setState unconditionally overwrites the current state,
never fails, and every subsequent action call dispatches on the new
state. -/
theorem setState_overwrites_and_redirects (c : TCPConnection)
    (next : ConnState) (a : Action) :
    (setState c next).state = next
    ∧ stepConn (setState c next) a = stepConn ⟨next⟩ a :=
  ⟨rfl, rfl⟩

/-- Claim C10: the machine never inspects the payload: from any state,
send (resp. receive) with two payloads yields the same next connection
and the same accepted-versus-rejected outcome, and outside Established
even the report text is identical — only the echoed text in Established
may differ. -/
theorem payload_never_inspected (s : ConnState) (p1 p2 : String) :
    (sendData ⟨s⟩ p1).1 = (sendData ⟨s⟩ p2).1
    ∧ isRejection (sendData ⟨s⟩ p1).2 = isRejection (sendData ⟨s⟩ p2).2
    ∧ (receiveData ⟨s⟩ p1).1 = (receiveData ⟨s⟩ p2).1
    ∧ isRejection (receiveData ⟨s⟩ p1).2
        = isRejection (receiveData ⟨s⟩ p2).2
    ∧ (s ≠ ConnState.established →
        (sendData ⟨s⟩ p1).2 = (sendData ⟨s⟩ p2).2
        ∧ (receiveData ⟨s⟩ p1).2 = (receiveData ⟨s⟩ p2).2) := by
  refine ⟨rfl, ?_, rfl, ?_, ?_⟩
  · cases s with
    | closed => rfl
    | listening => rfl
    | established => simp [sendData, sendDataMsg, isRejection_sending]
  · cases s with
    | closed => rfl
    | listening => rfl
    | established => simp [receiveData, receiveDataMsg, isRejection_receiving]
  · intro h
    cases s with
    | closed => exact ⟨rfl, rfl⟩
    | listening => exact ⟨rfl, rfl⟩
    | established => exact absurd rfl h

/-- Witness for claim C10 at a concrete input. -/
theorem payload_never_inspected_witness :
    ConnState.closed ≠ ConnState.established
    ∧ (sendData ⟨ConnState.closed⟩ "a").2 = (sendData ⟨ConnState.closed⟩ "b").2 :=
  ⟨by decide,
   ((payload_never_inspected ConnState.closed "a" "b").2.2.2.2 (by decide)).1⟩

end TCP
